import Mathlib

/-!
# Verification of the `@connectaryal/google-analytics` tracking runtime

A shallow embedding, in Lean 4, of the tracking runtime implemented by
`src/core/GoogleAnalytics.ts` (initialization state machine and dispatch path)
and the `GATracker` event-builder layer (the positional-argument variant is the
primary embedding; the object-parameter `trackWishlist` and the third
`trackPurchase` variant are embedded separately where a claim refers to them).

Conventions of the embedding:
* JavaScript numbers are modelled as rationals (`ℚ`); `(+x.toFixed(2))` is
  modelled by `round2`, rounding half away from zero at two decimal places.
* JavaScript objects used as parameter bags are modelled as association lists
  `List (String × PValue)`; a later binding for the same key shadows an
  earlier one, mirroring object-spread semantics, and `getParam` looks a key
  up with that last-wins rule.
* Methods that can `throw` return `Except String _`; a `.error` value is a
  synchronously raised domain error, produced before any dispatch attempt.
* The browser environment (whether `window`/`document` exist, whether a
  `gtag` function is installed globally) is passed explicitly.
* `Date.now()` timestamps are omitted: no claim observes them.
-/

/-- `InitializationState` from `src/types/analytics.ts`. -/
inductive InitializationState
  | NOT_INITIALIZED
  | INITIALIZING
  | INITIALIZED
  | FAILED
  deriving DecidableEq, Repr

/-- `GA4Config` from `src/types/analytics.ts`, with the `disableGA` flag used
by `src/core/GoogleAnalytics.ts` and the defaulted fields made concrete
(`debug : Bool`, `currency : String`).  `customConfig` is not observed by any
claim and is omitted. -/
structure GA4Config where
  measurementId : String
  debug : Bool
  currency : String
  disableGA : Bool
  deriving DecidableEq, Repr

/-- The hosting environment as seen by `isBrowser()` / `isGtagAvailable()`
from `src/utils/validation.ts`: whether `window`/`document` exist and whether
some third party installed a global `gtag` function before this runtime did. -/
structure BrowserEnv where
  browser : Bool
  externalGtag : Bool
  deriving DecidableEq, Repr

/-- The status of the stored `gtagLoadPromise`: still pending on the script
load, or already rejected (the executor threw synchronously, e.g. because
`document` does not exist outside a browser). -/
inductive LoadPromise
  | pending
  | rejected
  deriving DecidableEq, Repr

/-- The mutable fields of a `GoogleAnalytics` instance together with the
pieces of global state its methods write: `initializationState` and
`gtagLoadPromise` are instance fields; `gtagInstalled` records whether
`configureGA()` has assigned `window.gtag`; `loadAttempts` counts how many
times `loadGoogleAnalytics` appended a backend script tag. -/
structure GAState where
  initializationState : InitializationState
  gtagInstalled : Bool
  loadAttempts : Nat
  gtagLoadPromise : Option LoadPromise
  deriving DecidableEq, Repr

/-- The state every fresh instance starts in (constructor of
`GoogleAnalytics`, lines 53–59). -/
def initialState : GAState :=
  { initializationState := .NOT_INITIALIZED
    gtagInstalled := false
    loadAttempts := 0
    gtagLoadPromise := none }

/-- `isGtagAvailable()` from `src/utils/validation.ts`:
`isBrowser() && typeof window.gtag === "function"`.  The global `gtag` is a
function iff a third party installed one or `configureGA()` ran. -/
def isGtagAvailable (env : BrowserEnv) (s : GAState) : Bool :=
  env.browser && (env.externalGtag || s.gtagInstalled)

/-- `GoogleAnalytics.isInitialized()` (lines 212–216): `true` when
`disableGA` is set, the state is `INITIALIZED`, or `gtag` is globally
available. -/
def isInitialized (cfg : GA4Config) (env : BrowserEnv) (s : GAState) : Bool :=
  cfg.disableGA || (s.initializationState == .INITIALIZED) || isGtagAvailable env s

/-- `GoogleAnalytics.getInitializationState()` (lines 224–226). -/
def getInitializationState (s : GAState) : InitializationState :=
  s.initializationState

/-- `GoogleAnalytics.validateConfig()` (lines 67–73): a no-op when
`disableGA` is set, otherwise raises when `measurementId` is falsy (the empty
string). -/
def validateConfig (cfg : GA4Config) : Except String Unit :=
  if cfg.disableGA then .ok ()
  else if cfg.measurementId = "" then .error "GA4 measurementId is required"
  else .ok ()

/-- The `GoogleAnalytics` constructor (lines 53–59): freezes the
configuration, validates it, and starts in `NOT_INITIALIZED`. -/
def mkGoogleAnalytics (cfg : GA4Config) : Except String GAState :=
  match validateConfig cfg with
  | .error e => .error e
  | .ok _ => .ok initialState

/-- `validateMeasurementId` from `src/utils/validation.ts`: the regular
expression `^G-[A-Z0-9]{10}$` from `VALIDATION_PATTERNS.MEASUREMENT_ID`. -/
def validateMeasurementId (s : String) : Bool :=
  let cs := s.toList
  cs.length = 12 && cs.take 2 = ['G', '-']
    && (cs.drop 2).all (fun c => c.isUpper || c.isDigit)

/-- `GoogleAnalytics.destroy()` (lines 292–295): clears the stored load
promise and resets the state to `NOT_INITIALIZED`.  It does not uninstall the
global `gtag` function and does not undo script loads. -/
def destroy (s : GAState) : GAState :=
  { s with gtagLoadPromise := none, initializationState := .NOT_INITIALIZED }

/-- Outcome of the external backend script load (`scriptTag.onload` versus
`scriptTag.onerror` in `loadGoogleAnalytics`, lines 164–170). -/
inductive LoadOutcome
  | success
  | failure
  deriving DecidableEq, Repr

/-- What a single `init()` call returned after its synchronous prefix ran:

* `resolvedNow` — returned `Promise.resolve()` from the `isInitialized()`
  early return (line 102), or from the `INITIALIZING` branch when no load
  promise was stored (line 105, `?? Promise.resolve()`);
* `sharedPromise p` — returned the stored `gtagLoadPromise` from the
  `INITIALIZING` branch (lines 104–106);
* `awaitingResolved` — entered the `try` block and `loadGoogleAnalytics`
  returned an already-resolved promise via its own `isInitialized()` early
  return (line 152); the continuation sets `INITIALIZED`;
* `awaitingLoad` — entered the `try` block and is suspended on the pending
  script load; the continuation sets `INITIALIZED` or `FAILED` (lines
  110–123);
* `awaitingRejected` — entered the `try` block but the load executor threw
  synchronously (no `document` outside a browser), so the awaited promise is
  already rejected; the continuation sets `FAILED`. -/
inductive InitRet
  | resolvedNow
  | sharedPromise (p : LoadPromise)
  | awaitingResolved
  | awaitingLoad
  | awaitingRejected
  deriving DecidableEq, Repr

/-- The synchronous prefix of `GoogleAnalytics.init()` (lines 101–124)
together with the synchronous part of `loadGoogleAnalytics()` (lines
151–174), which runs up to the `await` without yielding: the `new Promise`
executor appends the script tag and calls `configureGA()` (installing
`window.gtag`) synchronously, in a browser; outside a browser
`document.createElement` throws inside the executor, so the stored promise is
already rejected and no script tag is appended. -/
def init (cfg : GA4Config) (env : BrowserEnv) (s : GAState) : GAState × InitRet :=
  if isInitialized cfg env s then (s, .resolvedNow)
  else if s.initializationState = .INITIALIZING then
    match s.gtagLoadPromise with
    | some p => (s, .sharedPromise p)
    | none => (s, .resolvedNow)
  else
    let s1 := { s with initializationState := .INITIALIZING }
    if isInitialized cfg env s1 then (s1, .awaitingResolved)
    else if env.browser then
      ({ s1 with gtagInstalled := true
                 loadAttempts := s1.loadAttempts + 1
                 gtagLoadPromise := some .pending }, .awaitingLoad)
    else
      ({ s1 with gtagLoadPromise := some .rejected }, .awaitingRejected)

/-- The continuation of an `init()` call once the load settles: the `try`
block sets `INITIALIZED` on success; the `catch` block sets `FAILED` (lines
110–123).  Calls that returned without entering the `try` block leave the
state untouched. -/
def settle (s : GAState) (r : InitRet) (o : LoadOutcome) : GAState :=
  match r with
  | .awaitingResolved => { s with initializationState := .INITIALIZED }
  | .awaitingLoad =>
    match o with
    | .success => { s with initializationState := .INITIALIZED }
    | .failure => { s with initializationState := .FAILED }
  | .awaitingRejected => { s with initializationState := .FAILED }
  | _ => s

/-- The outcome a caller observes from the promise its `init()` call
returned, once the load settles with outcome `o`. -/
def observe (r : InitRet) (o : LoadOutcome) : LoadOutcome :=
  match r with
  | .resolvedNow => .success
  | .sharedPromise .pending => o
  | .sharedPromise .rejected => .failure
  | .awaitingResolved => .success
  | .awaitingLoad => o
  | .awaitingRejected => .failure

/-- The observable results of the two-concurrent-`init()` scenario recorded
by `twoInit`. -/
structure TwoInitResult where
  midState : InitializationState
  finalState : InitializationState
  firstObserved : LoadOutcome
  secondObserved : LoadOutcome
  loadAttempts : Nat
  secondRet : InitRet
  deriving DecidableEq, Repr

/-- Two `init()` calls on a fresh instance, interleaved as the JavaScript
event loop interleaves them: the first call runs its synchronous prefix and
suspends, the second call then runs (its prefix — when it returns early its
whole behaviour is synchronous), and finally the load settles with outcome
`o` and the suspended continuations run. -/
def twoInit (cfg : GA4Config) (env : BrowserEnv) (o : LoadOutcome) : TwoInitResult :=
  let p1 := init cfg env initialState
  let p2 := init cfg env p1.1
  let sFinal := settle (settle p2.1 p1.2 o) p2.2 o
  { midState := p1.1.initializationState
    finalState := sFinal.initializationState
    firstObserved := observe p1.2 o
    secondObserved := observe p2.2 o
    loadAttempts := sFinal.loadAttempts
    secondRet := p2.2 }

/-!
## The event construction and normalization pipeline (`GATracker`)

The primary embedding follows the positional-argument `GATracker` variant
(the class claim sources cite by line); the object-parameter `trackWishlist`
and the third `trackPurchase` variant are embedded with their own names.
-/

/-- `EventCategory` from `src/utils/constants.ts`. -/
inductive EventCategory
  | ENGAGEMENT
  | ECOMMERCE
  | NAVIGATION
  | INTERACTION
  | CONVERSION
  | ERROR
  | PERFORMANCE
  | CUSTOM
  deriving DecidableEq, Repr

/-- `CartItem` / `EcommerceItem` from `src/types/ecommerce.ts`, restricted to
the fields the claims observe: `price` is required, `quantity` optional
(`none` models an absent key, `some q` a present one — including a present
`0`). -/
structure CartItem where
  item_id : String
  item_name : String
  price : ℚ
  quantity : Option ℚ
  deriving DecidableEq, Repr

/-- An item as it appears in a dispatched `items` parameter, after the
builder's normalization expression ran: every field is present. -/
structure NormItem where
  item_id : String
  item_name : String
  price : ℚ
  quantity : ℚ
  deriving DecidableEq, Repr

/-- Rounding half away from zero at the integer, on `ℚ`. -/
def jsRoundHalf (x : ℚ) : ℤ :=
  if 0 ≤ x then ⌊x + 1 / 2⌋ else -⌊(-x) + 1 / 2⌋

/-- `+value.toFixed(2)`: round to two decimal places, halves away from
zero. -/
def round2 (q : ℚ) : ℚ :=
  (jsRoundHalf (q * 100) : ℚ) / 100

/-- A value stored in an event parameter bag.  `rawItems` is an item list
stored without the normalization map (the third `trackPurchase` variant
spreads the caller's list as-is); `undefined` models a key present with value
`undefined`. -/
inductive PValue
  | s (v : String)
  | n (v : ℚ)
  | b (v : Bool)
  | items (v : List NormItem)
  | rawItems (v : List CartItem)
  | undefined
  deriving DecidableEq, Repr

/-- A JavaScript object used as a parameter bag: an association list in which
a later binding for a key shadows an earlier one (object-spread order). -/
abbrev Params : Type := List (String × PValue)

/-- Look a key up in a parameter bag; the last binding wins, as in a
JavaScript object literal built with spreads. -/
def getParam (ps : Params) (k : String) : Option PValue :=
  List.foldl (fun acc p => if p.1 = k then some p.2 else acc) none ps

/-- The item-list normalization expression shared by every e-commerce
builder:
`items.map(item => ({ quantity: item.quantity || 1, ...item, price: +item.price.toFixed(2) }))`.
Because `...item` is spread after the `quantity` default, a `quantity` key
present on the input item — even one holding `0` — overrides the computed
default; the default only applies when the key is absent.  `price` is written
after the spread, so the rounded value always wins. -/
def normalizeItem (it : CartItem) : NormItem :=
  { item_id := it.item_id
    item_name := it.item_name
    quantity := match it.quantity with
      | none => 1
      | some q => q
    price := round2 it.price }

/-- `items.map(...)` with the shared per-item normalization expression. -/
def normalizeItems (l : List CartItem) : List NormItem :=
  l.map normalizeItem

/-- `GAEvent` as produced by `GATracker.buildEvent`: a frozen record of name,
parameter bag and category (the `Date.now()` timestamp is omitted — no claim
observes it). -/
structure GAEvent where
  event_name : String
  event_parameters : Params
  event_category : EventCategory
  deriving DecidableEq, Repr

/-- `GATracker.buildEvent` (lines 21–32): the pure, never-failing canonical
event constructor. -/
def buildEvent (name : String) (params : Params) (category : EventCategory) : GAEvent :=
  { event_name := name, event_parameters := params, event_category := category }

/-- The dispatch-time environment seen by `trackEvent`: whether
`isGtagAvailable()` holds when dispatch runs, and whether the external
`window.gtag` call itself throws when invoked. -/
structure TrackEnv where
  gtagAvailable : Bool
  gtagThrows : Bool
  deriving DecidableEq, Repr

/-- `TrackingOptions` from `src/types/core.ts`, restricted to the fields
`trackEvent` reads. -/
structure TrackingOptions where
  customParameters : Params
  hasOnError : Bool
  deriving DecidableEq

/-- The default `options = {}` of `trackEvent`. -/
def noOptions : TrackingOptions :=
  { customParameters := [], hasOnError := false }

/-- What a completed `trackEvent` call did:

* `disabled` — returned at the `disableGA` short-circuit, no `gtag` call;
* `unavailable` — `gtag` was not available; warned and returned, no call;
* `skipped` — a builder returned before building an event (silent skip on a
  missing optional input: no path for `trackPage`, a blank search term);
* `dispatched name data` — invoked `window.gtag("event", name, data)`;
* `dispatchFailed o` — the `gtag` call threw; the error was caught and
  logged, and `onError` was queued on a microtask iff it was supplied. -/
inductive DispatchResult
  | disabled
  | unavailable
  | skipped
  | dispatched (name : String) (data : Params)
  | dispatchFailed (onErrorScheduled : Bool)
  deriving DecidableEq

/-- `GoogleAnalytics.trackEvent` (lines 258–280).  The body past the guards
is wrapped in `try`/`catch`, so the function itself never raises — its result
is always `.ok`; the `Except` layer is kept so that its type lines up with
the builder methods, which do raise. -/
def trackEvent (cfg : GA4Config) (env : TrackEnv) (ev : GAEvent)
    (opts : TrackingOptions) : Except String DispatchResult :=
  if cfg.disableGA then .ok .disabled
  else if !env.gtagAvailable then .ok .unavailable
  else if env.gtagThrows then .ok (.dispatchFailed opts.hasOnError)
  else .ok (.dispatched ev.event_name (ev.event_parameters ++ opts.customParameters))

/-- `CartType` from `src/types/ecommerce.ts`. -/
inductive CartType
  | ADD_TO_CART
  | REMOVE_FROM_CART
  | VIEW_CART
  | UPDATE_CART
  deriving DecidableEq, Repr

/-- The string value of a `CartType` member, used both by the `${action}`
template in error messages and (via `GA_EVENTS`) as the event name. -/
def cartTypeVal : CartType → String
  | .ADD_TO_CART => "add_to_cart"
  | .REMOVE_FROM_CART => "remove_from_cart"
  | .VIEW_CART => "view_cart"
  | .UPDATE_CART => "update_cart"

/-- `WishlistType` (imported from `src/types/ecommerce.ts` by the tracker). -/
inductive WishlistType
  | ADD_TO_WISHLIST
  | REMOVE_FROM_WISHLIST
  | VIEW_WISHLIST
  | UPDATE_WISHLIST
  deriving DecidableEq, Repr

/-- The string value of a `WishlistType` member. -/
def wishlistTypeVal : WishlistType → String
  | .ADD_TO_WISHLIST => "add_to_wishlist"
  | .REMOVE_FROM_WISHLIST => "remove_from_wishlist"
  | .VIEW_WISHLIST => "view_wishlist"
  | .UPDATE_WISHLIST => "update_wishlist"

/-- `ItemType` (imported from `src/types/ecommerce.ts` by the tracker). -/
inductive ItemType
  | SELECT_ITEM
  | VIEW_ITEM
  | VIEW_ITEM_LIST
  deriving DecidableEq, Repr

/-- The string value of an `ItemType` member. -/
def itemTypeVal : ItemType → String
  | .SELECT_ITEM => "select_item"
  | .VIEW_ITEM => "view_item"
  | .VIEW_ITEM_LIST => "view_item_list"

/-- `PromotionType` (imported from `src/types/ecommerce.ts` by the
tracker). -/
inductive PromotionType
  | VIEW_PROMOTION
  | SELECT_PROMOTION
  deriving DecidableEq, Repr

/-- The string value of a `PromotionType` member. -/
def promotionTypeVal : PromotionType → String
  | .VIEW_PROMOTION => "view_promotion"
  | .SELECT_PROMOTION => "select_promotion"

/-- Encode an optional string argument the way an object literal stores it:
an absent argument is the key bound to `undefined`. -/
def optStr : Option String → PValue
  | some v => .s v
  | none => .undefined

/-- Encode an optional numeric argument the same way. -/
def optNum : Option ℚ → PValue
  | some v => .n v
  | none => .undefined

/-- `GATracker.trackCart` (positional variant, lines 120–163): raises on an
empty item list and on a falsy `value` (`!value`, i.e. `0`); otherwise
dispatches the cart event named by `action` with currency, rounded value and
normalized items, custom parameters spread last. -/
def trackCart (cfg : GA4Config) (env : TrackEnv) (action : CartType)
    (items : List CartItem) (value : ℚ) (customParams : Params) :
    Except String DispatchResult :=
  if items.isEmpty then
    .error ("GA4: Cannot track " ++ cartTypeVal action ++ " with empty items")
  else if value = 0 then
    .error ("GA4: Cannot track " ++ cartTypeVal action ++ " without value")
  else
    let eventParams : Params :=
      [("currency", .s cfg.currency), ("value", .n (round2 value)),
       ("items", .items (normalizeItems items))] ++ customParams
    trackEvent cfg env (buildEvent (cartTypeVal action) eventParams .ECOMMERCE) noOptions

/-- `GATracker.trackWishlist` (positional variant, lines 165–208): raises on
an empty item list and on a falsy `value` (`!value`, i.e. `0`); otherwise
dispatches the wishlist event named by `action`. -/
def trackWishlist (cfg : GA4Config) (env : TrackEnv) (action : WishlistType)
    (items : List CartItem) (value : ℚ) (customParams : Params) :
    Except String DispatchResult :=
  if items.isEmpty then
    .error ("GA4: Cannot track " ++ wishlistTypeVal action ++ " with empty items")
  else if value = 0 then
    .error ("GA4: Cannot track " ++ wishlistTypeVal action ++ " without value")
  else
    let eventParams : Params :=
      [("currency", .s cfg.currency), ("value", .n (round2 value)),
       ("items", .items (normalizeItems items))] ++ customParams
    trackEvent cfg env (buildEvent (wishlistTypeVal action) eventParams .ECOMMERCE) noOptions

/-- `GATracker.trackWishlist` (object-parameter variant, lines 807–859): the
guard is `value == null`, so an explicit `0` is accepted; `value : Option ℚ`
models the nullable argument (`none` = `null`/`undefined`). -/
def trackWishlistObj (cfg : GA4Config) (env : TrackEnv) (action : WishlistType)
    (items : List CartItem) (value : Option ℚ) (customParams : Params) :
    Except String DispatchResult :=
  if items.isEmpty then
    .error ("GA4: Cannot track " ++ wishlistTypeVal action ++ " with empty items")
  else
    match value with
    | none => .error ("GA4: Cannot track " ++ wishlistTypeVal action ++ " without value")
    | some v =>
      let eventParams : Params :=
        [("currency", .s cfg.currency), ("value", .n (round2 v)),
         ("items", .items (normalizeItems items))] ++ customParams
      trackEvent cfg env (buildEvent (wishlistTypeVal action) eventParams .ECOMMERCE) noOptions

/-- `GATracker.trackShippingInfo` (positional variant, lines 210–243): raises
on an empty item list and on a falsy `value`; attaches `shipping_tier`. -/
def trackShippingInfo (cfg : GA4Config) (env : TrackEnv) (items : List CartItem)
    (value : ℚ) (shipping_tier : String) (customParams : Params) :
    Except String DispatchResult :=
  if items.isEmpty then
    .error "GA4: Cannot track shipping info with empty items"
  else if value = 0 then
    .error "GA4: Cannot track shipping info without value"
  else
    let eventParams : Params :=
      [("currency", .s cfg.currency), ("value", .n (round2 value)),
       ("items", .items (normalizeItems items)),
       ("shipping_tier", .s shipping_tier)] ++ customParams
    trackEvent cfg env (buildEvent "add_shipping_info" eventParams .ECOMMERCE) noOptions

/-- `GATracker.trackPaymentInfo` (positional variant, lines 245–278): raises
on an empty item list and on a falsy `value`; attaches `payment_type`. -/
def trackPaymentInfo (cfg : GA4Config) (env : TrackEnv) (items : List CartItem)
    (value : ℚ) (payment_type : String) (customParams : Params) :
    Except String DispatchResult :=
  if items.isEmpty then
    .error "GA4: Cannot track payment info with empty items"
  else if value = 0 then
    .error "GA4: Cannot track payment info without value"
  else
    let eventParams : Params :=
      [("currency", .s cfg.currency), ("value", .n (round2 value)),
       ("items", .items (normalizeItems items)),
       ("payment_type", .s payment_type)] ++ customParams
    trackEvent cfg env (buildEvent "add_payment_info" eventParams .ECOMMERCE) noOptions

/-- `GATracker.trackItem` (positional variant, lines 73–118): raises on an
empty item list; the event name is selected by `action`; `view_item` attaches
currency and the (possibly `undefined`) value after the custom-parameter
spread, the list actions attach `item_list_id`/`item_list_name` there. -/
def trackItem (cfg : GA4Config) (env : TrackEnv) (action : ItemType)
    (items : List CartItem) (item_list_id : Option String)
    (item_list_name : Option String) (value : Option ℚ) (customParams : Params) :
    Except String DispatchResult :=
  if items.isEmpty then
    .error ("GA4: Cannot track " ++ itemTypeVal action ++ " with empty items")
  else
    let base : Params := [("items", .items (normalizeItems items))] ++ customParams
    let eventParams : Params :=
      base ++ (if action = .VIEW_ITEM then
        [("currency", .s cfg.currency), ("value", optNum value)]
      else
        [("item_list_id", optStr item_list_id), ("item_list_name", optStr item_list_name)])
    trackEvent cfg env (buildEvent (itemTypeVal action) eventParams .ECOMMERCE) noOptions

/-- `GATracker.trackPromotion` (positional variant, lines 373–417): raises on
an empty item list and on a falsy `creative_name`. -/
def trackPromotion (cfg : GA4Config) (env : TrackEnv) (action : PromotionType)
    (items : List CartItem) (creative_name creative_slot promotion_id promotion_name : String)
    (customParams : Params) : Except String DispatchResult :=
  if items.isEmpty then
    .error ("GA4: Cannot track " ++ promotionTypeVal action ++ " with empty items")
  else if creative_name = "" then
    .error ("GA4: Cannot track " ++ promotionTypeVal action ++ " without creative_name")
  else
    let eventParams : Params :=
      [("creative_name", .s creative_name), ("creative_slot", .s creative_slot),
       ("promotion_id", .s promotion_id), ("promotion_name", .s promotion_name),
       ("items", .items (normalizeItems items))] ++ customParams
    trackEvent cfg env (buildEvent (promotionTypeVal action) eventParams .ECOMMERCE) noOptions

/-- `GATracker.trackPurchase` (positional variant, lines 304–328): raises on
a falsy `transactionId` or `value <= 0`; otherwise dispatches a `purchase`
event with transaction id, currency, rounded value and normalized items. -/
def trackPurchase (cfg : GA4Config) (env : TrackEnv) (transactionId : String)
    (value : ℚ) (items : List CartItem) (customParams : Params) :
    Except String DispatchResult :=
  if transactionId = "" ∨ value ≤ 0 then
    .error "GA4: Invalid purchase parameters"
  else
    let eventParams : Params :=
      [("transaction_id", .s transactionId), ("currency", .s cfg.currency),
       ("value", .n (round2 value)),
       ("items", .items (normalizeItems items))] ++ customParams
    trackEvent cfg env (buildEvent "purchase" eventParams .ECOMMERCE) noOptions

/-- `GATracker.trackRefund` (positional variant, lines 330–354): same guard
and shape as `trackPurchase`, dispatching `refund`. -/
def trackRefund (cfg : GA4Config) (env : TrackEnv) (transactionId : String)
    (value : ℚ) (items : List CartItem) (customParams : Params) :
    Except String DispatchResult :=
  if transactionId = "" ∨ value ≤ 0 then
    .error "GA4: Invalid refund parameters"
  else
    let eventParams : Params :=
      [("transaction_id", .s transactionId), ("currency", .s cfg.currency),
       ("value", .n (round2 value)),
       ("items", .items (normalizeItems items))] ++ customParams
    trackEvent cfg env (buildEvent "refund" eventParams .ECOMMERCE) noOptions

/-- `GATracker.trackPurchase` (third variant, lines 1574–1596 of the
concatenated tracker sources): same guard, but the `items` key is included
only when the list is non-empty (`...(items.length && { items })`) and the
caller's items are spread without normalization. -/
def trackPurchaseV3 (cfg : GA4Config) (env : TrackEnv) (transactionId : String)
    (value : ℚ) (items : List CartItem) (options : Params) :
    Except String DispatchResult :=
  if transactionId = "" ∨ value ≤ 0 then
    .error "GA4: Invalid purchase parameters"
  else
    let eventParams : Params :=
      [("transaction_id", .s transactionId), ("value", .n (round2 value)),
       ("currency", .s cfg.currency)]
        ++ (if items.isEmpty then [] else [("items", .rawItems items)])
        ++ options
    trackEvent cfg env (buildEvent "purchase" eventParams .ECOMMERCE) noOptions

/-- The environment inputs `trackPage` reads besides the browser flag:
`window.location.href`, `document.title`, `document.referrer`. -/
structure PageEnv where
  browser : Bool
  href : String
  docTitle : String
  docReferrer : String
  deriving DecidableEq, Repr

/-- `GATracker.trackPage` (positional variant, lines 34–62): resolves the
path as `path ?? (isBrowser() ? window.location.href : null)`; a falsy result
(`null` or the empty string) is a silent skip (a debug-only warning), never a
raise; otherwise dispatches `page_view`. -/
def trackPage (cfg : GA4Config) (env : TrackEnv) (page : PageEnv)
    (path title referrer : Option String) (customParams : Params) :
    Except String DispatchResult :=
  let pageUrl : Option String :=
    match path with
    | some p => some p
    | none => if page.browser then some page.href else none
  match pageUrl with
  | none => .ok .skipped
  | some url =>
    if url = "" then .ok .skipped
    else
      let pageTitle := match title with
        | some t => t
        | none => if page.browser then page.docTitle else ""
      let pageReferrer := match referrer with
        | some r => r
        | none => if page.browser then page.docReferrer else ""
      let eventParams : Params :=
        [("page_title", .s pageTitle), ("page_location", .s url),
         ("page_referrer", .s pageReferrer)] ++ customParams
      trackEvent cfg env (buildEvent "page_view" eventParams .ENGAGEMENT) noOptions

/-- JavaScript `String.prototype.trim`: strip leading and trailing
whitespace. -/
def jsTrim (s : String) : String :=
  String.mk
    (((s.toList.dropWhile Char.isWhitespace).reverse.dropWhile
      Char.isWhitespace).reverse)

/-- `GATracker.trackSearch` (positional variant, lines 356–371): a search
term that trims to the empty string is a silent skip (a debug-only warning),
never a raise; otherwise dispatches `search` with the trimmed term. -/
def trackSearch (cfg : GA4Config) (env : TrackEnv) (searchTerm : String)
    (options : Params) : Except String DispatchResult :=
  if jsTrim searchTerm = "" then .ok .skipped
  else
    trackEvent cfg env
      (buildEvent "search" ([("search_term", .s (jsTrim searchTerm))] ++ options) .ENGAGEMENT)
      noOptions

/-!
## Shared concrete fixtures used by witnesses and counterexamples
-/

/-- A well-formed enabled configuration with a correctly shaped measurement
id. -/
def cfg0 : GA4Config := ⟨"G-ABCDEFGH12", false, "USD", false⟩

/-- A browser environment with no third-party `gtag`. -/
def envB : BrowserEnv := ⟨true, false⟩

/-- A dispatch-time environment in which `gtag` is available and does not
throw. -/
def readyEnv : TrackEnv := ⟨true, false⟩

/-- A line item whose `quantity` key is present and holds `0`. -/
def item0 : CartItem := ⟨"sku1", "Widget", 999/100, some 0⟩

/-- An ordinary line item. -/
def item1 : CartItem := ⟨"sku2", "Gadget", 10, some 2⟩

/-!
## Claims
-/

/-- **C2.** Constructing a runtime with an empty `measurementId` and
`disableGA = false` always raises a configuration error; for every
configuration with a correctly shaped measurement id — and for every
configuration with `disableGA = true`, regardless of `measurementId` —
construction succeeds and the initial initialization state is
`NOT_INITIALIZED`. -/
theorem construction_contract (cfg : GA4Config) :
    (cfg.measurementId = "" ∧ cfg.disableGA = false →
      mkGoogleAnalytics cfg = .error "GA4 measurementId is required") ∧
    (validateMeasurementId cfg.measurementId = true →
      mkGoogleAnalytics cfg = .ok initialState) ∧
    (cfg.disableGA = true → mkGoogleAnalytics cfg = .ok initialState) ∧
    getInitializationState initialState = .NOT_INITIALIZED := by
  refine ⟨fun ⟨h1, h2⟩ => ?_, fun h => ?_, fun h => ?_, rfl⟩
  · simp [mkGoogleAnalytics, validateConfig, h1, h2]
  · have hne : cfg.measurementId ≠ "" := by
      intro h0
      rw [h0] at h
      simp [validateMeasurementId] at h
    unfold mkGoogleAnalytics validateConfig
    rcases hd : cfg.disableGA <;> simp [hd, hne]
  · simp [mkGoogleAnalytics, validateConfig, h]

/-- Witness for `construction_contract`, at an empty-id enabled
configuration, a well-shaped-id configuration, and a disabled
configuration. -/
theorem construction_contract_witness :
    (mkGoogleAnalytics ⟨"", false, "USD", false⟩ =
      .error "GA4 measurementId is required") ∧
    (mkGoogleAnalytics cfg0 = .ok initialState) ∧
    (mkGoogleAnalytics ⟨"", true, "EUR", true⟩ = .ok initialState) :=
  ⟨(construction_contract ⟨"", false, "USD", false⟩).1 ⟨rfl, rfl⟩,
   (construction_contract cfg0).2.1 (by decide),
   (construction_contract ⟨"", true, "EUR", true⟩).2.2.1 rfl⟩

/-- **C3.** Dispatch never breaks the caller: for every event and every
options bag, if the reporting channel is not ready (`gtag` unavailable) or
`disableGA` is set, `trackEvent` resolves as a no-op — it neither invokes the
reporting function nor raises; and whenever `disableGA` is set,
`isInitialized()` returns `true` in every environment and state. -/
theorem dispatch_never_breaks (cfg : GA4Config) (env : TrackEnv)
    (ev : GAEvent) (opts : TrackingOptions) (benv : BrowserEnv) (s : GAState)
    (h : cfg.disableGA = true ∨ env.gtagAvailable = false) :
    (trackEvent cfg env ev opts = .ok .disabled ∨
      trackEvent cfg env ev opts = .ok .unavailable) ∧
    (cfg.disableGA = true → isInitialized cfg benv s = true) := by
  constructor
  · rcases h with h | h
    · exact .inl (by simp [trackEvent, h])
    · rcases hd : cfg.disableGA
      · exact .inr (by simp [trackEvent, hd, h])
      · exact .inl (by simp [trackEvent, hd])
  · intro hd
    simp [isInitialized, hd]

/-- Witness for `dispatch_never_breaks`: a disabled configuration and an
unavailable channel, at a concrete event. -/
theorem dispatch_never_breaks_witness :
    (trackEvent ⟨"G-ABCDEFGH12", false, "USD", true⟩ readyEnv
        (buildEvent "login" [] .CONVERSION) noOptions = .ok .disabled ∨
      trackEvent ⟨"G-ABCDEFGH12", false, "USD", true⟩ readyEnv
        (buildEvent "login" [] .CONVERSION) noOptions = .ok .unavailable) ∧
    (isInitialized ⟨"G-ABCDEFGH12", false, "USD", true⟩ ⟨false, false⟩
      initialState = true) :=
  ⟨(dispatch_never_breaks ⟨"G-ABCDEFGH12", false, "USD", true⟩ readyEnv
      (buildEvent "login" [] .CONVERSION) noOptions ⟨false, false⟩ initialState
      (.inl rfl)).1,
   (dispatch_never_breaks ⟨"G-ABCDEFGH12", false, "USD", true⟩ readyEnv
      (buildEvent "login" [] .CONVERSION) noOptions ⟨false, false⟩ initialState
      (.inl rfl)).2 rfl⟩

/-- **C4** (failing-input evaluation).  The claim says every dispatched item
has `quantity ≥ 1`, the default `1` applying when the input quantity is
absent *or falsy*.  The normalization expression is
`{ quantity: item.quantity || 1, ...item, price: +item.price.toFixed(2) }`:
the `...item` spread runs after the default, so an input item carrying
`quantity: 0` overrides the computed `1` and is dispatched with quantity `0`.
At the failing input `{item_id: "sku1", price: 9.99, quantity: 0}`,
`trackCart` dispatches the item with `quantity = 0`; the default does apply
when the key is absent, and the price is rounded as claimed. -/
theorem quantity_default_overridden :
    trackCart cfg0 readyEnv .ADD_TO_CART [item0] 5 [] =
      .ok (.dispatched "add_to_cart"
        [("currency", .s "USD"), ("value", .n 5),
         ("items", .items [⟨"sku1", "Widget", 999/100, 0⟩])]) ∧
    (normalizeItem item0).quantity = 0 ∧
    ¬(1 ≤ (normalizeItem item0).quantity) ∧
    (normalizeItem ⟨"sku1", "Widget", 999/100, none⟩).quantity = 1 ∧
    (normalizeItem item0).price = round2 (999/100) := by
  have h1 : round2 (999/100 : ℚ) = 999/100 := by norm_num [round2, jsRoundHalf]
  have h2 : round2 (5 : ℚ) = 5 := by norm_num [round2, jsRoundHalf]
  refine ⟨?_, by norm_num [normalizeItem, item0], by norm_num [normalizeItem, item0],
    by norm_num [normalizeItem], by norm_num [normalizeItem, item0, h1]⟩
  norm_num [trackCart, trackEvent, buildEvent, normalizeItems, normalizeItem,
    cfg0, readyEnv, item0, noOptions, cartTypeVal, h1, h2]

/-- **C5.** `trackPurchase` raises a domain error synchronously — before any
dispatch attempt — whenever `transactionId` is the empty string or
`value ≤ 0`; with `transactionId = "ORDER_1"`, `value = 25.5` and one item it
produces a canonical `purchase` event whose parameters carry
`transaction_id = "ORDER_1"` and `value = 25.5`. -/
theorem trackPurchase_contract (cfg : GA4Config) (env : TrackEnv)
    (tid : String) (v : ℚ) (items : List CartItem) (cp : Params)
    (item : CartItem) :
    (tid = "" ∨ v ≤ 0 →
      trackPurchase cfg env tid v items cp =
        .error "GA4: Invalid purchase parameters") ∧
    (cfg.disableGA = false →
      ∃ ps, trackPurchase cfg readyEnv "ORDER_1" (51/2) [item] [] =
          .ok (.dispatched "purchase" ps) ∧
        getParam ps "transaction_id" = some (.s "ORDER_1") ∧
        getParam ps "value" = some (.n (51/2))) := by
  constructor
  · intro h
    simp [trackPurchase, h]
  · intro hd
    have h2 : round2 (51/2 : ℚ) = 51/2 := by norm_num [round2, jsRoundHalf]
    refine ⟨[("transaction_id", .s "ORDER_1"), ("currency", .s cfg.currency),
      ("value", .n (51/2)), ("items", .items (normalizeItems [item]))], ?_, ?_, ?_⟩
    · have hs : ("ORDER_1" : String) ≠ "" := by decide
      norm_num [trackPurchase, trackEvent, buildEvent, readyEnv, hd, noOptions, h2, hs]
    · simp [getParam]
    · simp [getParam]

/-- Witness for `trackPurchase_contract`: the error branch at
`transactionId = ""` and the dispatch branch at the enabled fixture
configuration with one concrete item. -/
theorem trackPurchase_contract_witness :
    (("" : String) = "" ∨ (0 : ℚ) ≤ 0) ∧
    (trackPurchase cfg0 readyEnv "" 0 [item1] [] =
      .error "GA4: Invalid purchase parameters") ∧
    cfg0.disableGA = false ∧
    (∃ ps, trackPurchase cfg0 readyEnv "ORDER_1" (51/2) [item1] [] =
        .ok (.dispatched "purchase" ps) ∧
      getParam ps "transaction_id" = some (.s "ORDER_1") ∧
      getParam ps "value" = some (.n (51/2))) :=
  ⟨.inl rfl,
   (trackPurchase_contract cfg0 readyEnv "" 0 [item1] [] item1).1 (.inl rfl),
   rfl,
   (trackPurchase_contract cfg0 readyEnv "" 0 [item1] [] item1).2 rfl⟩

/-- **C6.** For every valid action value, `trackCart`, `trackWishlist`,
`trackShippingInfo` and `trackPaymentInfo` raise a domain error when the
item list is empty — the guard runs before any dispatch attempt, in every
configuration and dispatch environment. -/
theorem empty_items_raise (cfg : GA4Config) (env : TrackEnv) (v : ℚ)
    (tier ptype : String) (cp : Params) :
    (∀ a : CartType, trackCart cfg env a [] v cp =
      .error ("GA4: Cannot track " ++ cartTypeVal a ++ " with empty items")) ∧
    (∀ a : WishlistType, trackWishlist cfg env a [] v cp =
      .error ("GA4: Cannot track " ++ wishlistTypeVal a ++ " with empty items")) ∧
    (trackShippingInfo cfg env [] v tier cp =
      .error "GA4: Cannot track shipping info with empty items") ∧
    (trackPaymentInfo cfg env [] v ptype cp =
      .error "GA4: Cannot track payment info with empty items") := by
  exact ⟨fun a => by simp [trackCart], fun a => by simp [trackWishlist],
    by simp [trackShippingInfo], by simp [trackPaymentInfo]⟩

/-- The body of `trackEvent` past the guards is wrapped in `try`/`catch`, so
every `trackEvent` call returns `.ok`: no dispatch-path failure reaches the
caller. -/
theorem trackEvent_ok (cfg : GA4Config) (env : TrackEnv) (ev : GAEvent)
    (opts : TrackingOptions) :
    ∃ r, trackEvent cfg env ev opts = .ok r := by
  unfold trackEvent
  rcases cfg.disableGA
  · rcases env.gtagAvailable
    · exact ⟨.unavailable, rfl⟩
    · rcases env.gtagThrows
      · exact ⟨_, rfl⟩
      · exact ⟨_, rfl⟩
  · exact ⟨.disabled, rfl⟩

/-- **C7** (counterexample).  The claim says `trackWishlist` (with non-empty
items) accepts `value = 0` and raises only when the value is null/absent.
The positional variant — one of the two implementations the claim covers —
guards with `!value`, so an explicit `0` is rejected exactly like
`trackCart`: at action `ADD_TO_WISHLIST`, one item and `value = 0` it raises
instead of dispatching. -/
theorem wishlist_zero_value_cex :
    trackWishlist cfg0 readyEnv .ADD_TO_WISHLIST [item1] 0 [] =
      .error "GA4: Cannot track add_to_wishlist without value" ∧
    trackWishlistObj cfg0 readyEnv .ADD_TO_WISHLIST [item1] (some 0) [] ≠
      .error "GA4: Cannot track add_to_wishlist without value" := by
  constructor
  · simp [trackWishlist, wishlistTypeVal]
  · have h0 : round2 (0 : ℚ) = 0 := by norm_num [round2, jsRoundHalf]
    simp [trackWishlistObj, trackEvent, buildEvent, cfg0, readyEnv,
      noOptions, wishlistTypeVal, h0]

/-- **C7** (amended).  Only the object-parameter variant of `trackWishlist`
accepts `value = 0` (raising only when the value is null/absent); the
positional variant guards with `!value` and rejects `0` exactly like
`trackCart`, which raises a domain error at `value = 0` in both variants'
shape. -/
theorem wishlist_value_contract (cfg : GA4Config) (env : TrackEnv)
    (a : WishlistType) (a' : CartType) (it : CartItem) (items : List CartItem)
    (cp : Params) :
    (∃ r, trackWishlistObj cfg env a (it :: items) (some 0) cp = .ok r) ∧
    (trackWishlistObj cfg env a (it :: items) none cp =
      .error ("GA4: Cannot track " ++ wishlistTypeVal a ++ " without value")) ∧
    (trackWishlist cfg env a (it :: items) 0 cp =
      .error ("GA4: Cannot track " ++ wishlistTypeVal a ++ " without value")) ∧
    (trackCart cfg env a' (it :: items) 0 cp =
      .error ("GA4: Cannot track " ++ cartTypeVal a' ++ " without value")) := by
  refine ⟨?_, by simp [trackWishlistObj], by simp [trackWishlist],
    by simp [trackCart]⟩
  have h := trackEvent_ok cfg env
    (buildEvent (wishlistTypeVal a)
      ([("currency", .s cfg.currency), ("value", .n (round2 0)),
        ("items", .items (normalizeItems (it :: items)))] ++ cp) .ECOMMERCE)
    noOptions
  obtain ⟨r, hr⟩ := h
  exact ⟨r, by simpa [trackWishlistObj] using hr⟩

/-- **C8.** The silent-skip builders never raise on missing optional inputs:
`trackPage` with no explicit path and no resolvable environment path
dispatches nothing and does not raise; `trackSearch` with a term that trims
to the empty string dispatches nothing and does not raise, and with a
non-blank term dispatches a `search` event whose `search_term` parameter is
the trimmed input. -/
theorem silent_skip_contract (cfg : GA4Config) (env : TrackEnv)
    (page : PageEnv) (title referrer : Option String) (cp : Params)
    (term : String) (opts : Params) :
    (page.browser = false →
      trackPage cfg env page none title referrer cp = .ok .skipped) ∧
    (jsTrim term = "" → trackSearch cfg env term opts = .ok .skipped) ∧
    (jsTrim term ≠ "" → cfg.disableGA = false →
      trackSearch cfg readyEnv term [] =
        .ok (.dispatched "search" [("search_term", .s (jsTrim term))])) := by
  refine ⟨fun hb => ?_, fun ht => by simp [trackSearch, ht], fun ht hd => ?_⟩
  · simp [trackPage, hb]
  · simp [trackSearch, ht, trackEvent, buildEvent, readyEnv, hd, noOptions]

/-- Witness for `silent_skip_contract`: a non-browser page environment, a
whitespace-only search term, and the non-blank term `" shoes "` whose
dispatched `search_term` is `"shoes"`. -/
theorem silent_skip_contract_witness :
    ((⟨false, "", "", ""⟩ : PageEnv).browser = false ∧
      trackPage cfg0 readyEnv ⟨false, "", "", ""⟩ none none none [] =
        .ok .skipped) ∧
    (jsTrim " " = "" ∧
      trackSearch cfg0 readyEnv " " [] = .ok .skipped) ∧
    (jsTrim " shoes " ≠ "" ∧ cfg0.disableGA = false ∧
      trackSearch cfg0 readyEnv " shoes " [] =
        .ok (.dispatched "search" [("search_term", .s "shoes")])) := by
  have h1 := (silent_skip_contract cfg0 readyEnv ⟨false, "", "", ""⟩
    none none [] " " []).1 rfl
  have h2 := (silent_skip_contract cfg0 readyEnv ⟨false, "", "", ""⟩
    none none [] " " []).2.1 (by decide)
  have h3 := (silent_skip_contract cfg0 readyEnv ⟨false, "", "", ""⟩
    none none [] " shoes " []).2.2 (by decide) rfl
  have ht : jsTrim " shoes " = "shoes" := by decide
  exact ⟨⟨rfl, h1⟩, ⟨by decide, h2⟩, ⟨by decide, rfl, by rw [ht] at h3; exact h3⟩⟩

/-- **C9.** The readiness predicate and the state enum disagree at the public
interface in reachable states: a runtime constructed with `disableGA = true`
reports `isInitialized() = true` while `getInitializationState()` is
`NOT_INITIALIZED`; and after a successful `init()` followed by `destroy()`
the state is reset to `NOT_INITIALIZED` while the still-installed global
`gtag` keeps `isInitialized()` true.  Readiness is not equivalent to the
state being `INITIALIZED`. -/
theorem readiness_state_disagreement :
    (mkGoogleAnalytics ⟨"", true, "USD", true⟩ = .ok initialState ∧
      isInitialized ⟨"", true, "USD", true⟩ ⟨false, false⟩ initialState = true ∧
      getInitializationState initialState = .NOT_INITIALIZED) ∧
    (getInitializationState
        (settle (init cfg0 envB initialState).1 (init cfg0 envB initialState).2
          .success) = .INITIALIZED ∧
      getInitializationState
        (destroy (settle (init cfg0 envB initialState).1
          (init cfg0 envB initialState).2 .success)) = .NOT_INITIALIZED ∧
      isInitialized cfg0 envB
        (destroy (settle (init cfg0 envB initialState).1
          (init cfg0 envB initialState).2 .success)) = true) :=
  ⟨⟨rfl, rfl, rfl⟩, rfl, rfl, rfl⟩

/-- **C10.** `trackPurchase` imposes no non-empty-items precondition: with a
non-empty `transactionId`, `value > 0` and an empty item list it does not
raise; under a ready channel the primary variant dispatches a `purchase`
event whose `items` parameter is the empty list, while the third variant
omits the `items` key entirely. -/
theorem purchase_empty_items_ok (cfg : GA4Config) (env : TrackEnv)
    (tx : String) (v : ℚ) (cp : Params) (htx : tx ≠ "") (hv : 0 < v) :
    (∃ r, trackPurchase cfg env tx v [] cp = .ok r) ∧
    (∃ r, trackPurchaseV3 cfg env tx v [] cp = .ok r) ∧
    (cfg.disableGA = false →
      (∃ ps, trackPurchase cfg readyEnv tx v [] [] =
          .ok (.dispatched "purchase" ps) ∧
        getParam ps "items" = some (.items [])) ∧
      (∃ ps, trackPurchaseV3 cfg readyEnv tx v [] [] =
          .ok (.dispatched "purchase" ps) ∧
        getParam ps "items" = none)) := by
  have hcond : ¬(tx = "" ∨ v ≤ 0) := by
    push_neg
    exact ⟨htx, hv⟩
  refine ⟨?_, ?_, fun hd => ⟨?_, ?_⟩⟩
  · unfold trackPurchase
    rw [if_neg hcond]
    exact trackEvent_ok _ _ _ _
  · unfold trackPurchaseV3
    rw [if_neg hcond]
    exact trackEvent_ok _ _ _ _
  · refine ⟨[("transaction_id", .s tx), ("currency", .s cfg.currency),
      ("value", .n (round2 v)), ("items", .items [])], ?_, by simp [getParam]⟩
    unfold trackPurchase
    rw [if_neg hcond]
    simp [trackEvent, buildEvent, readyEnv, hd, noOptions, normalizeItems]
  · refine ⟨[("transaction_id", .s tx), ("value", .n (round2 v)),
      ("currency", .s cfg.currency)], ?_, by simp [getParam]⟩
    unfold trackPurchaseV3
    rw [if_neg hcond]
    simp [trackEvent, buildEvent, readyEnv, hd, noOptions]

/-- Witness for `purchase_empty_items_ok`: transaction `"T1"`, value `5`, at
the enabled fixture configuration and ready channel. -/
theorem purchase_empty_items_ok_witness :
    ("T1" : String) ≠ "" ∧ (0 : ℚ) < 5 ∧
    ((∃ r, trackPurchase cfg0 readyEnv "T1" 5 [] [] = .ok r) ∧
      (∃ r, trackPurchaseV3 cfg0 readyEnv "T1" 5 [] [] = .ok r) ∧
      (cfg0.disableGA = false →
        (∃ ps, trackPurchase cfg0 readyEnv "T1" 5 [] [] =
            .ok (.dispatched "purchase" ps) ∧
          getParam ps "items" = some (.items [])) ∧
        (∃ ps, trackPurchaseV3 cfg0 readyEnv "T1" 5 [] [] =
            .ok (.dispatched "purchase" ps) ∧
          getParam ps "items" = none))) :=
  ⟨by decide, by norm_num,
    purchase_empty_items_ok cfg0 readyEnv "T1" 5 [] (by decide) (by norm_num)⟩

/-- **C1** (counterexample).  The claim says a second `init()` beginning
while the first is still `INITIALIZING` returns the same in-flight operation
and both callers observe the same terminal state.  In a browser,
`loadGoogleAnalytics` calls `configureGA()` synchronously inside the promise
executor, installing `window.gtag` before the script has loaded; the second
`init()` therefore short-circuits at its `isInitialized()` early return
(`isGtagAvailable()` is already true) and returns a fresh resolved promise —
not the in-flight `gtagLoadPromise`.  When the script load then fails, the
first caller observes a rejection and the state becomes `FAILED`, while the
second caller has already observed success. -/
theorem init_reentrant_cex :
    (twoInit cfg0 envB .failure).midState = .INITIALIZING ∧
    (twoInit cfg0 envB .failure).secondRet = .resolvedNow ∧
    (∀ p : LoadPromise,
      (twoInit cfg0 envB .failure).secondRet ≠ .sharedPromise p) ∧
    (twoInit cfg0 envB .failure).firstObserved = .failure ∧
    (twoInit cfg0 envB .failure).secondObserved = .success ∧
    (twoInit cfg0 envB .failure).finalState = .FAILED := by
  refine ⟨rfl, rfl, fun p => ?_, rfl, rfl, rfl⟩
  cases p <;> decide

/-- **C1** (amended).  For two `init()` calls on a fresh enabled runtime, the
second beginning while the first is still `INITIALIZING`: exactly one backend
script-load attempt is made in a browser (and none outside one, where the
load executor throws before appending a script).  When the load succeeds both
callers observe success and the terminal state is `INITIALIZED`.  When the
load fails the terminal state is `FAILED` and the first caller observes the
failure, but in a browser the second caller observes success, because the
synchronously installed `gtag` stub makes its `isInitialized()` early return
fire; only outside a browser does the second call return the same stored
(already rejected) `gtagLoadPromise`, making both callers observe the same
failure. -/
theorem init_concurrent_single_load (cfg : GA4Config) (o : LoadOutcome)
    (hd : cfg.disableGA = false) :
    ((twoInit cfg ⟨true, false⟩ o).midState = .INITIALIZING ∧
      (twoInit cfg ⟨true, false⟩ o).loadAttempts = 1 ∧
      (twoInit cfg ⟨true, false⟩ o).secondRet = .resolvedNow ∧
      (o = .success →
        (twoInit cfg ⟨true, false⟩ o).firstObserved = .success ∧
        (twoInit cfg ⟨true, false⟩ o).secondObserved = .success ∧
        (twoInit cfg ⟨true, false⟩ o).finalState = .INITIALIZED) ∧
      (o = .failure →
        (twoInit cfg ⟨true, false⟩ o).firstObserved = .failure ∧
        (twoInit cfg ⟨true, false⟩ o).secondObserved = .success ∧
        (twoInit cfg ⟨true, false⟩ o).finalState = .FAILED)) ∧
    ((twoInit cfg ⟨false, false⟩ o).midState = .INITIALIZING ∧
      (twoInit cfg ⟨false, false⟩ o).loadAttempts = 0 ∧
      (twoInit cfg ⟨false, false⟩ o).secondRet = .sharedPromise .rejected ∧
      (twoInit cfg ⟨false, false⟩ o).firstObserved = .failure ∧
      (twoInit cfg ⟨false, false⟩ o).secondObserved = .failure ∧
      (twoInit cfg ⟨false, false⟩ o).finalState = .FAILED) := by
  obtain ⟨mid, dbg, cur, dga⟩ := cfg
  simp only at hd
  subst hd
  cases o <;>
    simp [twoInit, init, settle, observe, isInitialized, isGtagAvailable,
      initialState, getInitializationState]

/-- Witness for `init_concurrent_single_load`, at the enabled fixture
configuration with a successful load. -/
theorem init_concurrent_single_load_witness :
    cfg0.disableGA = false ∧
    (((twoInit cfg0 ⟨true, false⟩ .success).midState = .INITIALIZING ∧
      (twoInit cfg0 ⟨true, false⟩ .success).loadAttempts = 1 ∧
      (twoInit cfg0 ⟨true, false⟩ .success).secondRet = .resolvedNow ∧
      (LoadOutcome.success = .success →
        (twoInit cfg0 ⟨true, false⟩ .success).firstObserved = .success ∧
        (twoInit cfg0 ⟨true, false⟩ .success).secondObserved = .success ∧
        (twoInit cfg0 ⟨true, false⟩ .success).finalState = .INITIALIZED) ∧
      (LoadOutcome.success = .failure →
        (twoInit cfg0 ⟨true, false⟩ .success).firstObserved = .failure ∧
        (twoInit cfg0 ⟨true, false⟩ .success).secondObserved = .success ∧
        (twoInit cfg0 ⟨true, false⟩ .success).finalState = .FAILED)) ∧
    ((twoInit cfg0 ⟨false, false⟩ .success).midState = .INITIALIZING ∧
      (twoInit cfg0 ⟨false, false⟩ .success).loadAttempts = 0 ∧
      (twoInit cfg0 ⟨false, false⟩ .success).secondRet = .sharedPromise .rejected ∧
      (twoInit cfg0 ⟨false, false⟩ .success).firstObserved = .failure ∧
      (twoInit cfg0 ⟨false, false⟩ .success).secondObserved = .failure ∧
      (twoInit cfg0 ⟨false, false⟩ .success).finalState = .FAILED)) :=
  ⟨rfl, init_concurrent_single_load cfg0 .success rfl⟩
